import Mathlib

/-!
Verification of the GenAI data-analysis assistant core
(`core/storage.py`, `core/agent.py`, `core/analyzer.py`, `core/llm_client.py`)
as a shallow embedding in Lean 4.

Machine reals from Python are modelled as exact rationals; SQLite tables as
Lean lists of rows; timestamps as natural numbers; fallible operations as
`Option`; external collaborators (JSON serialisation, the report composer,
the filesystem readers, chart rendering success) as explicit parameters.
-/

/-! ## Result Store (`core/storage.py`) -/

/-- One row of the `sessions` table. -/
structure SessionRow where
  session_id : String
  filename : String
  filepath : String
  status : String
deriving DecidableEq

/-- One row of the `analysis_results` table; `created_at` is the insertion
timestamp (`CURRENT_TIMESTAMP`), modelled as a natural number. -/
structure ResultRow where
  session_id : String
  result_type : String
  result_data : String
  created_at : Nat
deriving DecidableEq

/-- The SQLite database: the `sessions` and `analysis_results` tables, each a
list of rows in insertion order. -/
structure Store where
  sessions : List SessionRow
  results : List ResultRow
deriving DecidableEq

/-- `Storage.update_session_status`: `UPDATE sessions SET status = ? WHERE
session_id = ?`. -/
def update_session_status (st : Store) (sid newStatus : String) : Store :=
  { st with
    sessions := st.sessions.map fun s =>
      if s.session_id = sid then { s with status := newStatus } else s }

/-- `Storage.save_analysis_result`: a single `INSERT INTO analysis_results`,
stamped with the current time `now`. -/
def save_analysis_result (st : Store) (sid rt data : String) (now : Nat) : Store :=
  { st with results := st.results ++ [⟨sid, rt, data, now⟩] }

/-- The rows matching `WHERE session_id = ? AND result_type = ?`. -/
def resultsFor (st : Store) (sid rt : String) : List ResultRow :=
  st.results.filter fun r => r.session_id = sid ∧ r.result_type = rt

/-- Comparator realising `ORDER BY created_at DESC LIMIT 1`: of two rows, the
one with the later `created_at` (the earlier-inserted row on a tie). -/
def laterRow (a b : ResultRow) : ResultRow :=
  if a.created_at < b.created_at then b else a

/-- `Storage.get_analysis_result`: `SELECT result_data ... ORDER BY created_at
DESC LIMIT 1`, or `none` when no row matches. -/
def get_analysis_result (st : Store) (sid rt : String) : Option String :=
  match resultsFor st sid rt with
  | [] => none
  | r :: rs => some ((rs.foldl laterRow r).result_data)

/-- A sequence of `save_analysis_result` calls, each argument tuple being
(session_id, result_type, result_data, timestamp). -/
def applySaves (st : Store) (ops : List (String × String × String × Nat)) : Store :=
  ops.foldl (fun acc op => save_analysis_result acc op.1 op.2.1 op.2.2.1 op.2.2.2) st

/-! ## Tabular data and the profiler (`core/agent.py`, STEP 2) -/

/-- A pandas column dtype, as far as the profiler's `select_dtypes` partition
observes it: numeric (`include="number"`) or anything else. -/
inductive Dtype where
  | number
  | object
deriving DecidableEq

/-- One column: its name, dtype, and the per-cell nullness mask
(`df[col].isnull()`). -/
structure Column where
  name : String
  dtype : Dtype
  nulls : List Bool
deriving DecidableEq

/-- A loaded DataFrame: `nrows` is `len(df.index)`, `cols` the columns in
order. -/
structure DataFrame where
  nrows : Nat
  cols : List Column
deriving DecidableEq

/-- `df.shape[0] * df.shape[1]`. -/
def totalCells (df : DataFrame) : Nat :=
  df.nrows * df.cols.length

/-- `int(df.isnull().sum().sum())`: the per-cell nullness summed over the whole
dataset. -/
def missingCells (df : DataFrame) : Nat :=
  (df.cols.map fun c => c.nulls.count true).sum

/-- `df.empty`: true when either axis has length zero. -/
def dfEmpty (df : DataFrame) : Bool :=
  df.nrows = 0 ∨ df.cols.length = 0

/-- `round(x, 2)`: rounding to two decimal places, over exact rationals. -/
def round2 (q : ℚ) : ℚ :=
  (round (q * 100) : ℤ) / 100

/-- The profile dictionary built by `Agent.run_analysis` STEP 2. -/
structure Profile where
  total_rows : Nat
  total_columns : Nat
  numeric : List String
  categorical : List String
  missing_per_column : List (String × Nat)
  completeness_score : ℚ
deriving DecidableEq

/-- STEP 2 of `Agent.run_analysis`: the dataset profile, including
`completeness_score = round((1 - missing_cells / total_cells) * 100, 2)` when
`total_cells > 0` and `0` otherwise. -/
def run_profile (df : DataFrame) : Profile :=
  { total_rows := df.nrows
    total_columns := df.cols.length
    numeric := (df.cols.filter fun c => c.dtype = Dtype.number).map Column.name
    categorical := (df.cols.filter fun c => ¬ c.dtype = Dtype.number).map Column.name
    missing_per_column := df.cols.map fun c => (c.name, c.nulls.count true)
    completeness_score :=
      if 0 < totalCells df then
        round2 ((1 - (missingCells df : ℚ) / (totalCells df : ℚ)) * 100)
      else 0 }

/-! ## Insight Client (`core/llm_client.py`) -/

/-- The outcome of the underlying HTTP call: either a response with a status
code and the text extracted from its JSON body (`none` when the expected field
is absent), or a transport failure / timeout (an exception in `requests`). -/
inductive HttpOutcome where
  | success (status : Nat) (text : Option String)
  | failure
deriving DecidableEq

/-- `str.strip()`: whitespace removed from both ends. -/
def stripStr (s : String) : String :=
  String.mk (((s.data.dropWhile Char.isWhitespace).reverse.dropWhile
    Char.isWhitespace).reverse)

/-- `LLMClient._make_request`: returns the response text on HTTP 200 and
`none` on any non-200 status, missing field, or raised exception.  For the
`ollama` provider the text field defaults to the empty string and is
stripped (`.get("response", "").strip()`); otherwise a missing
`choices[0].message.content` raises, yielding `none`. -/
def make_request (provider : String) (out : HttpOutcome) : Option String :=
  match out with
  | HttpOutcome.failure => none
  | HttpOutcome.success status text =>
    if provider = "ollama" then
      if status = 200 then some (stripStr (text.getD "")) else none
    else
      if status = 200 then text else none

/-- `LLMClient._fallback_insights`: the fixed fallback text. -/
def fallback_insights : String :=
  "\n**Insights (Basic Analysis):**\n\nThe LLM service is currently unavailable. Here are basic observations:\n\n1. The dataset has been successfully loaded and cleaned\n2. Statistical analysis has been performed on all numeric columns\n3. Visualizations have been generated for key variables\n4. Please review the charts and statistics for detailed information\n"

/-- `LLMClient.generate_insights`: falls back when the client is marked
unavailable, and otherwise returns `response if response else fallback`, so a
`None` or empty response yields the fallback text. -/
def generate_insights (available : Bool) (provider : String) (out : HttpOutcome) : String :=
  if available = false then fallback_insights
  else
    match make_request provider out with
    | none => fallback_insights
    | some r => if r = "" then fallback_insights else r

/-! ## Chart Selector/Renderer (`core/analyzer.py`) -/

/-- A `ChartDescriptor`, reduced to its type and (for the per-column charts)
the source column; title/filename/description are determined by these. -/
inductive Chart where
  | histogram (col : String)
  | bar_chart (col : String)
  | heatmap
  | boxplot
deriving DecidableEq

/-- The inputs `DataAnalyzer.analyze` works from: the `select_dtypes` column
partition of its DataFrame, the distinct-value count `df[col].nunique()` of
each column, and render oracles saying whether each matplotlib render
succeeds (the per-chart `try/except` swallows a failure). -/
structure AnalyzerInput where
  numericCols : List String
  categoricalCols : List String
  nunique : String → Nat
  histOk : String → Bool
  barOk : String → Bool
  heatOk : Bool
  boxOk : Bool

/-- `DataAnalyzer._create_histogram`: appends one descriptor on success,
nothing when the render raises (the exception is caught and logged). -/
def create_histogram (inp : AnalyzerInput) (col : String) : List Chart :=
  if inp.histOk col then [Chart.histogram col] else []

/-- `DataAnalyzer._create_bar_chart`, same failure convention. -/
def create_bar_chart (inp : AnalyzerInput) (col : String) : List Chart :=
  if inp.barOk col then [Chart.bar_chart col] else []

/-- `DataAnalyzer._create_correlation_heatmap`, same failure convention. -/
def create_correlation_heatmap (inp : AnalyzerInput) : List Chart :=
  if inp.heatOk then [Chart.heatmap] else []

/-- `DataAnalyzer._create_boxplot`, same failure convention. -/
def create_boxplot (inp : AnalyzerInput) : List Chart :=
  if inp.boxOk then [Chart.boxplot] else []

/-- The histogram loop of `analyze`: over the given columns, break once
`chart_count >= MAX_CHARTS`, otherwise attempt the render and increment
`chart_count` whether or not the render succeeded.  State is
`(chart_count, charts so far)`. -/
def histLoop (inp : AnalyzerInput) (maxCharts : Nat) :
    List String → Nat × List Chart → Nat × List Chart
  | [], st => st
  | col :: cols, (count, charts) =>
    if maxCharts ≤ count then (count, charts)
    else histLoop inp maxCharts cols (count + 1, charts ++ create_histogram inp col)

/-- The categorical loop of `analyze`: break once the budget is reached; a
column with `nunique > 15` is passed over without an attempt and without
consuming budget. -/
def catLoop (inp : AnalyzerInput) (maxCharts : Nat) :
    List String → Nat × List Chart → Nat × List Chart
  | [], st => st
  | col :: cols, (count, charts) =>
    if maxCharts ≤ count then (count, charts)
    else if inp.nunique col ≤ 15 then
      catLoop inp maxCharts cols (count + 1, charts ++ create_bar_chart inp col)
    else
      catLoop inp maxCharts cols (count, charts)

/-- Step 3 of `analyze`: one correlation heatmap, attempted only when there
are at least two numeric columns and budget remains. -/
def heatStep (inp : AnalyzerInput) (maxCharts : Nat) (st : Nat × List Chart) :
    Nat × List Chart :=
  if 2 ≤ inp.numericCols.length ∧ st.1 < maxCharts then
    (st.1 + 1, st.2 ++ create_correlation_heatmap inp)
  else st

/-- Step 4 of `analyze`: one box plot, attempted only when there is at least
one numeric column and budget remains. -/
def boxStep (inp : AnalyzerInput) (maxCharts : Nat) (st : Nat × List Chart) :
    Nat × List Chart :=
  if 1 ≤ inp.numericCols.length ∧ st.1 < maxCharts then
    (st.1 + 1, st.2 ++ create_boxplot inp)
  else st

/-- `DataAnalyzer.analyze` with chart budget `maxCharts` (`config.MAX_CHARTS`):
histograms for `numeric_cols[:3]`, bar charts for `categorical_cols[:2]`, then
one heatmap (if ≥ 2 numeric columns and budget remains) and one boxplot (if
≥ 1 numeric column and budget remains).  Returns the final
`(chart_count, self.charts)`. -/
def analyze (inp : AnalyzerInput) (maxCharts : Nat) : Nat × List Chart :=
  boxStep inp maxCharts (heatStep inp maxCharts
    (catLoop inp maxCharts (inp.categoricalCols.take 2)
      (histLoop inp maxCharts (inp.numericCols.take 3) (0, []))))

/-- The columns that received a bar chart, in order. -/
def barCols (charts : List Chart) : List String :=
  charts.filterMap fun c =>
    match c with
    | Chart.bar_chart col => some col
    | _ => none

/-- The same analyzer input with every render oracle forced to succeed. -/
def allOk (inp : AnalyzerInput) : AnalyzerInput :=
  { inp with
    histOk := fun _ => true
    barOk := fun _ => true
    heatOk := true
    boxOk := true }

/-! ## Orchestrator (`core/agent.py`, `Agent.run_analysis`) -/

/-- `Agent.run_analysis` for one session.  The fallible or external pieces are
explicit parameters: `load` is the outcome of `Storage.load_dataframe`;
`available`, `provider` and `out` drive the insight client; `dumpsProfile` and
`dumpsCharts` stand for `json.dumps` on the profile and (always empty) chart
list; `composeReport` stands for the out-of-scope `ReportGenerator`
(accumulate profile, charts, insights; serialise the report); `now` stamps the
four inserted rows.  A load failure or empty dataset raises, the top-level
`except` catches it, and the run returns `False` with the store untouched;
otherwise the four results are persisted and the session is marked
`completed`. -/
def run_analysis (st : Store) (sid : String) (load : Option DataFrame)
    (available : Bool) (provider : String) (out : HttpOutcome)
    (dumpsProfile : Profile → String) (dumpsCharts : List Chart → String)
    (composeReport : Profile → List Chart → String → String) (now : Nat) :
    Bool × Store :=
  match load with
  | none => (false, st)
  | some df =>
    if dfEmpty df then (false, st)
    else
      let profile := run_profile df
      let charts : List Chart := []
      let insights := generate_insights available provider out
      let report := composeReport profile charts insights
      let st1 := save_analysis_result st sid "profile" (dumpsProfile profile) now
      let st2 := save_analysis_result st1 sid "charts" (dumpsCharts charts) now
      let st3 := save_analysis_result st2 sid "insights" insights now
      let st4 := save_analysis_result st3 sid "report" report now
      (true, update_session_status st4 sid "completed")

/-! ## Dataset loading (`Storage.load_dataframe`) -/

/-- Split a character list at every `'.'` (the pieces of
`filepath.split('.')`). -/
def splitDots : List Char → List (List Char)
  | [] => [[]]
  | c :: cs =>
    if c = '.' then [] :: splitDots cs
    else
      match splitDots cs with
      | [] => [[c]]
      | p :: ps => (c :: p) :: ps

/-- `filepath.rsplit('.', 1)[1]`: the text after the last dot, or `none` when
the path has no dot (the index raises, caught by `load_dataframe`). -/
def extOf (filepath : String) : Option String :=
  match (splitDots filepath.data).reverse with
  | [] => none
  | [_] => none
  | e :: _ :: _ => some (String.mk e)

/-- `str.lower()`: every character lower-cased. -/
def lowerStr (s : String) : String :=
  String.mk (s.data.map Char.toLower)

/-- `Storage.load_dataframe`: dispatch on the lower-cased extension to the
CSV or Excel reader; any other extension, a missing extension, or a reader
failure (unreadable, empty, or unparsable file — pandas raises, the `except`
returns `None`) yields `none`.  The readers are parameters standing for
`pd.read_csv` / `pd.read_excel` on the ambient filesystem. -/
def load_dataframe (readCsv readExcel : String → Option DataFrame)
    (filepath : String) : Option DataFrame :=
  match extOf filepath with
  | none => none
  | some e =>
    if lowerStr e = "csv" then readCsv filepath
    else if lowerStr e = "xlsx" ∨ lowerStr e = "xls" then readExcel filepath
    else none

/-! ## Concrete instances used as witnesses -/

/-- The spec's scenario dataset: 100 rows, 4 numeric and 1 categorical column,
10 missing cells out of 500. -/
def dfScenario : DataFrame :=
  { nrows := 100
    cols := [⟨"a", Dtype.number, List.replicate 10 true ++ List.replicate 90 false⟩,
             ⟨"b", Dtype.number, List.replicate 100 false⟩,
             ⟨"c", Dtype.number, List.replicate 100 false⟩,
             ⟨"d", Dtype.number, List.replicate 100 false⟩,
             ⟨"e", Dtype.object, List.replicate 100 false⟩] }

/-- An analyzer input with three categorical columns, the first of which
exceeds the 15-distinct-value limit. -/
def inpCat : AnalyzerInput :=
  { numericCols := []
    categoricalCols := ["x", "y", "z"]
    nunique := fun c => if c = "x" then 20 else 3
    histOk := fun _ => true
    barOk := fun _ => true
    heatOk := true
    boxOk := true }

/-- An analyzer input with three numeric columns whose middle histogram render
fails. -/
def inpFail : AnalyzerInput :=
  { numericCols := ["a", "b", "c"]
    categoricalCols := []
    nunique := fun _ => 0
    histOk := fun c => !(c == "b")
    barOk := fun _ => true
    heatOk := true
    boxOk := true }

/-- A store holding two versions of the `profile` result of session `s`. -/
def stTwo : Store :=
  { sessions := []
    results := [⟨"s", "profile", "v1", 1⟩, ⟨"s", "profile", "v2", 2⟩] }

/-- A store with one freshly uploaded session. -/
def stUp : Store :=
  { sessions := [⟨"s", "data.csv", "uploads/data.csv", "uploaded"⟩]
    results := [] }

/-! ## Helper lemmas -/

theorem create_histogram_length (inp : AnalyzerInput) (col : String) :
    (create_histogram inp col).length ≤ 1 := by
  unfold create_histogram; split <;> simp

theorem create_bar_chart_length (inp : AnalyzerInput) (col : String) :
    (create_bar_chart inp col).length ≤ 1 := by
  unfold create_bar_chart; split <;> simp

theorem create_correlation_heatmap_length (inp : AnalyzerInput) :
    (create_correlation_heatmap inp).length ≤ 1 := by
  unfold create_correlation_heatmap; split <;> simp

theorem create_boxplot_length (inp : AnalyzerInput) :
    (create_boxplot inp).length ≤ 1 := by
  unfold create_boxplot; split <;> simp

/-- Loop invariant of the histogram loop: the chart list never outgrows the
counter, and the counter never passes the budget. -/
theorem histLoop_inv (inp : AnalyzerInput) (m : Nat) (cols : List String) :
    ∀ st : Nat × List Chart, st.2.length ≤ st.1 → st.1 ≤ m →
      (histLoop inp m cols st).2.length ≤ (histLoop inp m cols st).1 ∧
      (histLoop inp m cols st).1 ≤ m := by
  induction cols with
  | nil => intro st h1 h2; exact ⟨h1, h2⟩
  | cons col cols ih =>
    intro st h1 h2
    obtain ⟨count, charts⟩ := st
    unfold histLoop
    by_cases h : m ≤ count
    · rw [if_pos h]; exact ⟨h1, h2⟩
    · rw [if_neg h]
      apply ih
      · have hc := create_histogram_length inp col
        simp only [List.length_append]
        simp only at h1
        omega
      · omega

/-- Loop invariant of the categorical loop, as for `histLoop_inv`. -/
theorem catLoop_inv (inp : AnalyzerInput) (m : Nat) (cols : List String) :
    ∀ st : Nat × List Chart, st.2.length ≤ st.1 → st.1 ≤ m →
      (catLoop inp m cols st).2.length ≤ (catLoop inp m cols st).1 ∧
      (catLoop inp m cols st).1 ≤ m := by
  induction cols with
  | nil => intro st h1 h2; exact ⟨h1, h2⟩
  | cons col cols ih =>
    intro st h1 h2
    obtain ⟨count, charts⟩ := st
    unfold catLoop
    by_cases h : m ≤ count
    · rw [if_pos h]; exact ⟨h1, h2⟩
    · rw [if_neg h]
      by_cases hn : inp.nunique col ≤ 15
      · rw [if_pos hn]
        apply ih
        · have hc := create_bar_chart_length inp col
          simp only [List.length_append]
          simp only at h1
          omega
        · omega
      · rw [if_neg hn]
        exact ih (count, charts) h1 h2

/-! ## Claims -/

/-- C1: for every loaded dataset, the profile's `completeness_score` equals
`round((1 - missing_cells / total_cells) * 100, 2)` when
`total_cells = total_rows * total_columns` is positive, and equals `0` when
`total_cells = 0`. -/
theorem completeness_score_correct (df : DataFrame) :
    (0 < totalCells df →
      (run_profile df).completeness_score =
        round2 ((1 - (missingCells df : ℚ) / (totalCells df : ℚ)) * 100)) ∧
    (totalCells df = 0 → (run_profile df).completeness_score = 0) := by
  constructor
  · intro h
    simp only [run_profile, if_pos h]
  · intro h
    simp only [run_profile]
    rw [if_neg (by omega)]

/-- Witness for C1 at the spec's 100×5 scenario dataset (10 missing cells out
of 500). -/
theorem completeness_score_correct_witness :
    (run_profile dfScenario).completeness_score =
      round2 ((1 - (missingCells dfScenario : ℚ) / (totalCells dfScenario : ℚ)) * 100) :=
  (completeness_score_correct dfScenario).1 (by decide)

/-- The heatmap step keeps the list–counter–budget invariant. -/
theorem heatStep_inv (inp : AnalyzerInput) (m : Nat) (st : Nat × List Chart)
    (h1 : st.2.length ≤ st.1) (h2 : st.1 ≤ m) :
    (heatStep inp m st).2.length ≤ (heatStep inp m st).1 ∧
    (heatStep inp m st).1 ≤ m := by
  unfold heatStep
  split
  · next h =>
    refine ⟨?_, by omega⟩
    have hc := create_correlation_heatmap_length inp
    simp only [List.length_append]
    omega
  · exact ⟨h1, h2⟩

/-- The boxplot step keeps the list–counter–budget invariant. -/
theorem boxStep_inv (inp : AnalyzerInput) (m : Nat) (st : Nat × List Chart)
    (h1 : st.2.length ≤ st.1) (h2 : st.1 ≤ m) :
    (boxStep inp m st).2.length ≤ (boxStep inp m st).1 ∧
    (boxStep inp m st).1 ≤ m := by
  unfold boxStep
  split
  · next h =>
    refine ⟨?_, by omega⟩
    have hc := create_boxplot_length inp
    simp only [List.length_append]
    omega
  · exact ⟨h1, h2⟩

/-- C2: for every dataset and every chart budget, one run of
`DataAnalyzer.analyze` produces at most `MAX_CHARTS` charts. -/
theorem analyze_budget (inp : AnalyzerInput) (maxCharts : Nat) :
    (analyze inp maxCharts).2.length ≤ maxCharts := by
  unfold analyze
  obtain ⟨h1a, h1b⟩ :=
    histLoop_inv inp maxCharts (inp.numericCols.take 3) (0, []) (by simp) (Nat.zero_le _)
  obtain ⟨h2a, h2b⟩ :=
    catLoop_inv inp maxCharts (inp.categoricalCols.take 2) _ h1a h1b
  obtain ⟨h3a, h3b⟩ := heatStep_inv inp maxCharts _ h2a h2b
  obtain ⟨h4a, h4b⟩ := boxStep_inv inp maxCharts _ h3a h3b
  omega

/-- A column is listed by `barCols` exactly when its bar chart is in the
list. -/
theorem mem_barCols (c : String) (l : List Chart) :
    c ∈ barCols l ↔ Chart.bar_chart c ∈ l := by
  simp only [barCols, List.mem_filterMap]
  constructor
  · rintro ⟨ch, hch, he⟩
    cases ch <;> simp at he
    subst he
    exact hch
  · intro h
    exact ⟨Chart.bar_chart c, h, rfl⟩

theorem barCols_append (as bs : List Chart) :
    barCols (as ++ bs) = barCols as ++ barCols bs := by
  simp [barCols]

theorem barCols_create_histogram (inp : AnalyzerInput) (col : String) :
    barCols (create_histogram inp col) = [] := by
  unfold create_histogram
  split <;> simp [barCols]

theorem barCols_create_heatmap (inp : AnalyzerInput) :
    barCols (create_correlation_heatmap inp) = [] := by
  unfold create_correlation_heatmap
  split <;> simp [barCols]

theorem barCols_create_boxplot (inp : AnalyzerInput) :
    barCols (create_boxplot inp) = [] := by
  unfold create_boxplot
  split <;> simp [barCols]

theorem barCols_create_bar_chart_ok (inp : AnalyzerInput) (col : String)
    (h : inp.barOk col = true) :
    barCols (create_bar_chart inp col) = [col] := by
  simp [create_bar_chart, h, barCols]

/-- A bar chart only comes out of `_create_bar_chart` for its own column. -/
theorem create_bar_chart_mem (inp : AnalyzerInput) (col c : String)
    (h : Chart.bar_chart c ∈ create_bar_chart inp col) : c = col := by
  unfold create_bar_chart at h
  split at h <;> simp at h
  exact h

/-- The histogram loop adds no bar charts. -/
theorem histLoop_barCols (inp : AnalyzerInput) (m : Nat) (cols : List String) :
    ∀ st : Nat × List Chart, barCols (histLoop inp m cols st).2 = barCols st.2 := by
  induction cols with
  | nil => intro st; rfl
  | cons col cols ih =>
    intro st
    obtain ⟨count, charts⟩ := st
    unfold histLoop
    by_cases h : m ≤ count
    · rw [if_pos h]
    · rw [if_neg h, ih]
      simp [barCols_append, barCols_create_histogram]

/-- The heatmap step adds no bar charts. -/
theorem heatStep_barCols (inp : AnalyzerInput) (m : Nat) (st : Nat × List Chart) :
    barCols (heatStep inp m st).2 = barCols st.2 := by
  unfold heatStep
  split
  · simp [barCols_append, barCols_create_heatmap]
  · rfl

/-- The boxplot step adds no bar charts. -/
theorem boxStep_barCols (inp : AnalyzerInput) (m : Nat) (st : Nat × List Chart) :
    barCols (boxStep inp m st).2 = barCols st.2 := by
  unfold boxStep
  split
  · simp [barCols_append, barCols_create_boxplot]
  · rfl

/-- The histogram loop increments the counter at most once per column. -/
theorem histLoop_count_le (inp : AnalyzerInput) (m : Nat) (cols : List String) :
    ∀ st : Nat × List Chart, (histLoop inp m cols st).1 ≤ st.1 + cols.length := by
  induction cols with
  | nil => intro st; simp [histLoop]
  | cons col cols ih =>
    intro st
    obtain ⟨count, charts⟩ := st
    unfold histLoop
    by_cases h : m ≤ count
    · rw [if_pos h]; simp
    · rw [if_neg h]
      have := ih (count + 1, charts ++ create_histogram inp col)
      simp only [List.length_cons]
      omega

/-- Any bar chart emitted by the categorical loop is for a column with at most
15 distinct values. -/
theorem catLoop_bar_mem (inp : AnalyzerInput) (m : Nat) (cols : List String)
    (c : String) :
    ∀ st : Nat × List Chart, Chart.bar_chart c ∈ (catLoop inp m cols st).2 →
      Chart.bar_chart c ∈ st.2 ∨ inp.nunique c ≤ 15 := by
  induction cols with
  | nil => intro st h; exact Or.inl h
  | cons col cols ih =>
    intro st h
    obtain ⟨count, charts⟩ := st
    unfold catLoop at h
    by_cases hm : m ≤ count
    · rw [if_pos hm] at h
      exact Or.inl h
    · rw [if_neg hm] at h
      by_cases hn : inp.nunique col ≤ 15
      · rw [if_pos hn] at h
        rcases ih _ h with hin | hle
        · rcases List.mem_append.1 hin with h1 | h2
          · exact Or.inl h1
          · right
            rw [create_bar_chart_mem inp col c h2]
            exact hn
        · exact Or.inr hle
      · rw [if_neg hn] at h
        exact ih _ h

/-- With enough remaining budget and successful renders, the categorical loop
emits exactly the bar charts of its columns with at most 15 distinct values,
in order. -/
theorem catLoop_barCols (inp : AnalyzerInput) (m : Nat) (cols : List String) :
    ∀ count charts, count + cols.length ≤ m → (∀ c ∈ cols, inp.barOk c = true) →
      barCols (catLoop inp m cols (count, charts)).2 =
        barCols charts ++ cols.filter (fun c => inp.nunique c ≤ 15) := by
  induction cols with
  | nil => intro count charts _ _; simp [catLoop]
  | cons col cols ih =>
    intro count charts hb hok
    simp only [List.length_cons] at hb
    unfold catLoop
    rw [if_neg (by omega)]
    by_cases hn : inp.nunique col ≤ 15
    · rw [if_pos hn,
        ih (count + 1) _ (by omega) (fun c hc => hok c (List.mem_cons_of_mem _ hc)),
        barCols_append,
        barCols_create_bar_chart_ok inp col (hok col (List.mem_cons_self _ _))]
      simp [List.filter_cons, hn]
    · rw [if_neg hn, ih count charts (by omega) (fun c hc => hok c (List.mem_cons_of_mem _ hc))]
      simp [List.filter_cons, hn]

/-- C3: a categorical column with more than 15 distinct values never receives
a bar chart; and (budget permitting, with renders succeeding) the columns that
receive bar charts are exactly those among the first two categorical columns
with at most 15 distinct values — a high-cardinality column in that window is
skipped, not substituted by a later eligible column. -/
theorem bar_chart_policy (inp : AnalyzerInput) (maxCharts : Nat) :
    (∀ c, Chart.bar_chart c ∈ (analyze inp maxCharts).2 → inp.nunique c ≤ 15) ∧
    ((∀ c, inp.barOk c = true) → 5 ≤ maxCharts →
      barCols (analyze inp maxCharts).2 =
        (inp.categoricalCols.take 2).filter (fun c => inp.nunique c ≤ 15)) := by
  have hbars : barCols (analyze inp maxCharts).2 =
      barCols (catLoop inp maxCharts (inp.categoricalCols.take 2)
        (histLoop inp maxCharts (inp.numericCols.take 3) (0, []))).2 := by
    unfold analyze
    rw [boxStep_barCols, heatStep_barCols]
  constructor
  · intro c hc
    have hc2 : Chart.bar_chart c ∈ (catLoop inp maxCharts (inp.categoricalCols.take 2)
        (histLoop inp maxCharts (inp.numericCols.take 3) (0, []))).2 := by
      rw [← mem_barCols, ← hbars, mem_barCols]
      exact hc
    rcases catLoop_bar_mem inp maxCharts _ c _ hc2 with hin | hle
    · exfalso
      have : c ∈ barCols (histLoop inp maxCharts (inp.numericCols.take 3) (0, [])).2 :=
        (mem_barCols c _).2 hin
      rw [histLoop_barCols] at this
      simp [barCols] at this
    · exact hle
  · intro hok hbudget
    rw [hbars]
    have hcount : (histLoop inp maxCharts (inp.numericCols.take 3) (0, [])).1 ≤ 3 := by
      have h1 := histLoop_count_le inp maxCharts (inp.numericCols.take 3) (0, [])
      have h2 : (inp.numericCols.take 3).length ≤ 3 := by
        simp [List.length_take]
      omega
    have hwin : (inp.categoricalCols.take 2).length ≤ 2 := by
      simp [List.length_take]
    have hnobar : barCols (histLoop inp maxCharts (inp.numericCols.take 3) (0, [])).2 = [] := by
      rw [histLoop_barCols]
      simp [barCols]
    obtain ⟨⟨count1, charts1⟩, hst1⟩ :
        ∃ p : Nat × List Chart,
          histLoop inp maxCharts (inp.numericCols.take 3) (0, []) = p := ⟨_, rfl⟩
    rw [hst1] at hcount hnobar ⊢
    rw [catLoop_barCols inp maxCharts _ count1 charts1 (by omega)
      (fun c _ => hok c)]
    rw [hnobar]
    simp

/-- Witness for C3: with categorical columns x (20 distinct), y and z (3
distinct each) and budget 5, exactly y of the first-two window receives a bar
chart; z does not substitute for the skipped x. -/
theorem bar_chart_policy_witness :
    barCols (analyze inpCat 5).2 =
      (inpCat.categoricalCols.take 2).filter (fun c => inpCat.nunique c ≤ 15) :=
  (bar_chart_policy inpCat 5).2 (fun _ => rfl) (by decide)

/-- The histogram loop's final counter ignores the render oracles and the
chart lists. -/
theorem histLoop_count_congr (inp inp' : AnalyzerInput) (m : Nat) (cols : List String) :
    ∀ count charts charts',
      (histLoop inp m cols (count, charts)).1 = (histLoop inp' m cols (count, charts')).1 := by
  induction cols with
  | nil => intro count charts charts'; rfl
  | cons col cols ih =>
    intro count charts charts'
    unfold histLoop
    by_cases hm : m ≤ count
    · rw [if_pos hm, if_pos hm]
    · rw [if_neg hm, if_neg hm]
      exact ih _ _ _

/-- The categorical loop's final counter depends only on the distinct-value
counts, not on the render oracles or the chart lists. -/
theorem catLoop_count_congr (inp inp' : AnalyzerInput) (m : Nat) (cols : List String)
    (hnu : ∀ c, inp.nunique c = inp'.nunique c) :
    ∀ count charts charts',
      (catLoop inp m cols (count, charts)).1 = (catLoop inp' m cols (count, charts')).1 := by
  induction cols with
  | nil => intro count charts charts'; rfl
  | cons col cols ih =>
    intro count charts charts'
    unfold catLoop
    by_cases hm : m ≤ count
    · rw [if_pos hm, if_pos hm]
    · rw [if_neg hm, if_neg hm]
      by_cases hn : inp.nunique col ≤ 15
      · rw [if_pos hn, if_pos (by rw [← hnu]; exact hn)]
        exact ih _ _ _
      · rw [if_neg hn, if_neg (by rw [← hnu]; exact hn)]
        exact ih _ _ _

/-- The heatmap step's final counter depends only on the numeric column list
and the incoming counter. -/
theorem heatStep_count_congr (inp inp' : AnalyzerInput) (m : Nat)
    (hnc : inp.numericCols = inp'.numericCols) (st st' : Nat × List Chart)
    (h : st.1 = st'.1) : (heatStep inp m st).1 = (heatStep inp' m st').1 := by
  unfold heatStep
  by_cases hc : 2 ≤ inp.numericCols.length ∧ st.1 < m
  · rw [if_pos hc, if_pos (by rw [← hnc, ← h]; exact hc)]
    simp [h]
  · rw [if_neg hc, if_neg (by rw [← hnc, ← h]; exact hc)]
    exact h

/-- The boxplot step's final counter depends only on the numeric column list
and the incoming counter. -/
theorem boxStep_count_congr (inp inp' : AnalyzerInput) (m : Nat)
    (hnc : inp.numericCols = inp'.numericCols) (st st' : Nat × List Chart)
    (h : st.1 = st'.1) : (boxStep inp m st).1 = (boxStep inp' m st').1 := by
  unfold boxStep
  by_cases hc : 1 ≤ inp.numericCols.length ∧ st.1 < m
  · rw [if_pos hc, if_pos (by rw [← hnc, ← h]; exact hc)]
    simp [h]
  · rw [if_neg hc, if_neg (by rw [← hnc, ← h]; exact hc)]
    exact h

/-- The final chart counter is the same whether or not any render fails. -/
theorem analyze_count_allOk (inp : AnalyzerInput) (m : Nat) :
    (analyze inp m).1 = (analyze (allOk inp) m).1 := by
  unfold analyze
  apply boxStep_count_congr inp (allOk inp) m rfl
  apply heatStep_count_congr inp (allOk inp) m rfl
  show (catLoop inp m (inp.categoricalCols.take 2)
      (histLoop inp m (inp.numericCols.take 3) (0, []))).1 =
    (catLoop (allOk inp) m (inp.categoricalCols.take 2)
      (histLoop (allOk inp) m (inp.numericCols.take 3) (0, []))).1
  obtain ⟨⟨c1, l1⟩, h1⟩ : ∃ p : Nat × List Chart,
      histLoop inp m (inp.numericCols.take 3) (0, []) = p := ⟨_, rfl⟩
  obtain ⟨⟨c2, l2⟩, h2⟩ : ∃ p : Nat × List Chart,
      histLoop (allOk inp) m (inp.numericCols.take 3) (0, []) = p := ⟨_, rfl⟩
  have hcc : c1 = c2 := by
    have hh := histLoop_count_congr inp (allOk inp) m (inp.numericCols.take 3) 0 [] []
    rw [h1, h2] at hh
    exact hh
  rw [h1, h2, ← hcc]
  exact catLoop_count_congr inp (allOk inp) m _ (fun _ => rfl) c1 l1 l2

/-- C10: the budget counter counts attempted renders, not produced charts: it
is unchanged when every render is forced to succeed; and concretely, with
budget 3 and the middle of three histogram renders failing, the counter still
reaches 3, so the eligible heatmap is skipped even though only two descriptors
were produced. -/
theorem failed_render_consumes_budget :
    (∀ (inp : AnalyzerInput) (maxCharts : Nat),
      (analyze inp maxCharts).1 = (analyze (allOk inp) maxCharts).1) ∧
    (analyze inpFail 3 = (3, [Chart.histogram "a", Chart.histogram "c"]) ∧
      2 ≤ inpFail.numericCols.length ∧
      Chart.heatmap ∉ (analyze inpFail 3).2 ∧
      (analyze inpFail 3).2.length < 3) :=
  ⟨fun inp maxCharts => analyze_count_allOk inp maxCharts, by decide⟩

/-- The fold of `laterRow` selects one of the candidate rows. -/
theorem foldl_laterRow_mem (rs : List ResultRow) :
    ∀ r : ResultRow, rs.foldl laterRow r = r ∨ rs.foldl laterRow r ∈ rs := by
  induction rs with
  | nil => intro r; exact Or.inl rfl
  | cons b bs ih =>
    intro r
    simp only [List.foldl_cons]
    rcases ih (laterRow r b) with h | h
    · rw [h]
      unfold laterRow
      by_cases hc : r.created_at < b.created_at
      · rw [if_pos hc]
        exact Or.inr (List.mem_cons_self b bs)
      · rw [if_neg hc]
        exact Or.inl rfl
    · exact Or.inr (List.mem_cons_of_mem b h)

/-- The fold of `laterRow` dominates the seed and every candidate row in
`created_at`. -/
theorem foldl_laterRow_le (rs : List ResultRow) :
    ∀ r : ResultRow, r.created_at ≤ (rs.foldl laterRow r).created_at ∧
      ∀ s ∈ rs, s.created_at ≤ (rs.foldl laterRow r).created_at := by
  induction rs with
  | nil =>
    intro r
    exact ⟨Nat.le_refl _, fun s hs => absurd hs (List.not_mem_nil s)⟩
  | cons b bs ih =>
    intro r
    simp only [List.foldl_cons]
    obtain ⟨h1, h2⟩ := ih (laterRow r b)
    have hrb : r.created_at ≤ (laterRow r b).created_at ∧
        b.created_at ≤ (laterRow r b).created_at := by
      unfold laterRow
      by_cases hc : r.created_at < b.created_at
      · rw [if_pos hc]
        omega
      · rw [if_neg hc]
        omega
    refine ⟨le_trans hrb.1 h1, ?_⟩
    intro s hs
    rcases List.mem_cons.1 hs with rfl | hmem
    · exact le_trans hrb.2 h1
    · exact h2 s hmem

/-- C4: after any sequence of saves, `get_analysis_result` returns the
`result_data` of a stored row with maximal `created_at` among the rows with
that (session_id, result_type) key, and `none` when no such row exists. -/
theorem get_latest_result_is_max (st : Store) (sid rt : String) :
    (resultsFor st sid rt = [] → get_analysis_result st sid rt = none) ∧
    (resultsFor st sid rt ≠ [] →
      ∃ r ∈ resultsFor st sid rt,
        get_analysis_result st sid rt = some r.result_data ∧
        ∀ s ∈ resultsFor st sid rt, s.created_at ≤ r.created_at) := by
  constructor
  · intro h
    unfold get_analysis_result
    rw [h]
  · intro h
    obtain ⟨a, as, ha⟩ : ∃ a as, resultsFor st sid rt = a :: as := by
      cases hres : resultsFor st sid rt with
      | nil => exact absurd hres h
      | cons a as => exact ⟨a, as, rfl⟩
    unfold get_analysis_result
    rw [ha]
    refine ⟨as.foldl laterRow a, ?_, rfl, ?_⟩
    · rcases foldl_laterRow_mem as a with he | he
      · rw [he]
        exact List.mem_cons_self a as
      · exact List.mem_cons_of_mem a he
    · intro s hs
      obtain ⟨h1, h2⟩ := foldl_laterRow_le as a
      rcases List.mem_cons.1 hs with rfl | hmem
      · exact h1
      · exact h2 s hmem

/-- Witness for C4 at a store holding two versions of the `profile` result of
one session. -/
theorem get_latest_result_is_max_witness :
    ∃ r ∈ resultsFor stTwo "s" "profile",
      get_analysis_result stTwo "s" "profile" = some r.result_data ∧
      ∀ s ∈ resultsFor stTwo "s" "profile", s.created_at ≤ r.created_at :=
  (get_latest_result_is_max stTwo "s" "profile").2 (by decide)

/-- C5: every `save_analysis_result` call appends exactly one new row; rows
already stored are never updated or deleted, and the sessions table is
untouched, across any sequence of saves. -/
theorem save_result_append_only (st : Store) (ops : List (String × String × String × Nat)) :
    (∃ rest, (applySaves st ops).results = st.results ++ rest) ∧
    (applySaves st ops).results.length = st.results.length + ops.length ∧
    (applySaves st ops).sessions = st.sessions := by
  induction ops generalizing st with
  | nil =>
    exact ⟨⟨[], by simp [applySaves]⟩, by simp [applySaves], by simp [applySaves]⟩
  | cons op ops ih =>
    have happ : applySaves st (op :: ops) =
        applySaves (save_analysis_result st op.1 op.2.1 op.2.2.1 op.2.2.2) ops := by
      simp [applySaves]
    obtain ⟨⟨rest, hrest⟩, hlen, hsess⟩ :=
      ih (save_analysis_result st op.1 op.2.1 op.2.2.1 op.2.2.2)
    refine ⟨⟨⟨op.1, op.2.1, op.2.2.1, op.2.2.2⟩ :: rest, ?_⟩, ?_, ?_⟩
    · rw [happ, hrest]
      simp [save_analysis_result]
    · rw [happ, hlen]
      simp only [save_analysis_result, List.length_append, List.length_cons]
      simp
      omega
    · rw [happ, hsess]
      rfl

/-- C6: `generate_insights` always returns non-empty text; whenever the
underlying request yields no text it returns the fixed fallback text; and any
non-200 response makes the request yield no text. -/
theorem generate_insights_never_fails (available : Bool) (provider : String)
    (out : HttpOutcome) :
    generate_insights available provider out ≠ "" ∧
    (make_request provider out = none →
      generate_insights available provider out = fallback_insights) ∧
    (∀ (status : Nat) (text : Option String), ¬ status = 200 →
      make_request provider (HttpOutcome.success status text) = none) := by
  refine ⟨?_, ?_, ?_⟩
  · unfold generate_insights
    by_cases ha : available = false
    · rw [if_pos ha]
      decide
    · rw [if_neg ha]
      cases hm : make_request provider out with
      | none => decide
      | some r =>
        show (if r = "" then fallback_insights else r) ≠ ""
        by_cases hr : r = ""
        · rw [if_pos hr]
          decide
        · rw [if_neg hr]
          exact hr
  · intro hm
    unfold generate_insights
    by_cases ha : available = false
    · rw [if_pos ha]
    · rw [if_neg ha, hm]
  · intro status text hs
    show (if provider = "ollama" then
        if status = 200 then some (stripStr (text.getD "")) else none
      else if status = 200 then text else none) = none
    by_cases hp : provider = "ollama"
    · rw [if_pos hp, if_neg hs]
    · rw [if_neg hp, if_neg hs]

/-- Witness for C6: a transport failure on the hosted provider yields the
fallback text. -/
theorem generate_insights_never_fails_witness :
    generate_insights true "openai" HttpOutcome.failure = fallback_insights :=
  (generate_insights_never_fails true "openai" HttpOutcome.failure).2.1 rfl

/-- C7: when the dataset fails to load or has zero rows, the run aborts before
the insight and report steps: it reports failure and returns the store
unchanged, so no profile/charts/insights/report row is persisted and no status
is written. -/
theorem run_empty_dataset_aborts (st : Store) (sid : String) (load : Option DataFrame)
    (available : Bool) (provider : String) (out : HttpOutcome)
    (dumpsProfile : Profile → String) (dumpsCharts : List Chart → String)
    (composeReport : Profile → List Chart → String → String) (now : Nat)
    (h : load = none ∨ ∃ df, load = some df ∧ df.nrows = 0) :
    run_analysis st sid load available provider out dumpsProfile dumpsCharts
      composeReport now = (false, st) := by
  rcases h with rfl | ⟨df, rfl, hz⟩
  · rfl
  · simp [run_analysis, dfEmpty, hz]

/-- Witness for C7: a run whose dataset fails to load reports failure and
leaves the store untouched. -/
theorem run_empty_dataset_aborts_witness :
    run_analysis stUp "s" none true "openai" HttpOutcome.failure
      (fun _ => "") (fun _ => "") (fun _ _ _ => "") 0 = (false, stUp) :=
  run_empty_dataset_aborts stUp "s" none true "openai" HttpOutcome.failure
    (fun _ => "") (fun _ => "") (fun _ _ _ => "") 0 (Or.inl rfl)

/-- C8: the orchestrator writes no session status other than `completed`: on a
failed run the store is returned unchanged (status untouched); on a successful
run exactly the session's status becomes `completed`, and only with all four
result rows appended after the previously stored ones. -/
theorem run_status_policy (st : Store) (sid : String) (load : Option DataFrame)
    (available : Bool) (provider : String) (out : HttpOutcome)
    (dumpsProfile : Profile → String) (dumpsCharts : List Chart → String)
    (composeReport : Profile → List Chart → String → String) (now : Nat) :
    ((run_analysis st sid load available provider out dumpsProfile dumpsCharts
        composeReport now).1 = false →
      (run_analysis st sid load available provider out dumpsProfile dumpsCharts
        composeReport now).2 = st) ∧
    ((run_analysis st sid load available provider out dumpsProfile dumpsCharts
        composeReport now).1 = true →
      (run_analysis st sid load available provider out dumpsProfile dumpsCharts
        composeReport now).2.sessions = st.sessions.map (fun s =>
          if s.session_id = sid then { s with status := "completed" } else s) ∧
      (run_analysis st sid load available provider out dumpsProfile dumpsCharts
        composeReport now).2.results.length = st.results.length + 4 ∧
      (run_analysis st sid load available provider out dumpsProfile dumpsCharts
        composeReport now).2.results.take st.results.length = st.results) ∧
    (∀ s ∈ (run_analysis st sid load available provider out dumpsProfile dumpsCharts
        composeReport now).2.sessions, s.status = "completed" ∨ s ∈ st.sessions) := by
  cases load with
  | none =>
    refine ⟨fun _ => rfl, fun h => by simp [run_analysis] at h, fun s hs => Or.inr hs⟩
  | some df =>
    by_cases he : dfEmpty df = true
    · refine ⟨fun _ => ?_, fun h => ?_, fun s hs => Or.inr ?_⟩
      · simp [run_analysis, he]
      · simp [run_analysis, he] at h
      · simpa [run_analysis, he] using hs
    · have hrun : run_analysis st sid (some df) available provider out dumpsProfile
          dumpsCharts composeReport now =
          (true, update_session_status
            (save_analysis_result
              (save_analysis_result
                (save_analysis_result
                  (save_analysis_result st sid "profile" (dumpsProfile (run_profile df)) now)
                  sid "charts" (dumpsCharts []) now)
                sid "insights" (generate_insights available provider out) now)
              sid "report" (composeReport (run_profile df) []
                (generate_insights available provider out)) now)
            sid "completed") := by
        simp [run_analysis, he]
      rw [hrun]
      refine ⟨fun h => by simp at h, fun _ => ⟨rfl, ?_, ?_⟩, ?_⟩
      · simp [update_session_status, save_analysis_result]
      · show ((((st.results ++ _) ++ _) ++ _) ++ _).take st.results.length = st.results
        simp only [List.append_assoc]
        rw [List.take_left]
      · intro s hs
        simp only [update_session_status] at hs
        rcases List.mem_map.1 hs with ⟨a, ha, rfl⟩
        by_cases hid : a.session_id = sid
        · rw [if_pos hid]
          exact Or.inl rfl
        · rw [if_neg hid]
          exact Or.inr ha

/-- Witness for C8: a failed run (dataset absent) leaves the store — hence the
session status — unchanged. -/
theorem run_status_policy_witness :
    (run_analysis stUp "s" none true "openai" HttpOutcome.failure
      (fun _ => "") (fun _ => "") (fun _ _ _ => "") 0).2 = stUp :=
  (run_status_policy stUp "s" none true "openai" HttpOutcome.failure
    (fun _ => "") (fun _ => "") (fun _ _ _ => "") 0).1 rfl

/-- C9: `load_dataframe` yields no DataFrame exactly when the path carries no
supported extension (`csv`/`xlsx`/`xls`, case-insensitive, after the last dot)
or the responsible reader fails (unreadable, empty or unparsable file). -/
theorem load_dataframe_failure_iff (readCsv readExcel : String → Option DataFrame)
    (filepath : String) :
    load_dataframe readCsv readExcel filepath = none ↔
      ((∀ e, extOf filepath = some e →
          ¬ (lowerStr e = "csv" ∨ lowerStr e = "xlsx" ∨ lowerStr e = "xls")) ∨
        (∃ e, extOf filepath = some e ∧
          ((lowerStr e = "csv" ∧ readCsv filepath = none) ∨
           ((lowerStr e = "xlsx" ∨ lowerStr e = "xls") ∧ readExcel filepath = none)))) := by
  unfold load_dataframe
  cases hext : extOf filepath with
  | none =>
    constructor
    · intro _
      exact Or.inl fun e he => absurd he (by simp)
    · intro _
      rfl
  | some e =>
    dsimp only
    by_cases hcsv : lowerStr e = "csv"
    · rw [if_pos hcsv]
      constructor
      · intro h
        exact Or.inr ⟨e, rfl, Or.inl ⟨hcsv, h⟩⟩
      · rintro (hall | ⟨e', he', hcase⟩)
        · exact absurd (Or.inl hcsv) (hall e rfl)
        · injection he' with hee
          subst hee
          rcases hcase with ⟨_, hr⟩ | ⟨hl, _⟩
          · exact hr
          · rw [hcsv] at hl
            rcases hl with h1 | h1 <;> exact absurd h1 (by decide)
    · by_cases hxl : lowerStr e = "xlsx" ∨ lowerStr e = "xls"
      · rw [if_neg hcsv, if_pos hxl]
        constructor
        · intro h
          exact Or.inr ⟨e, rfl, Or.inr ⟨hxl, h⟩⟩
        · rintro (hall | ⟨e', he', hcase⟩)
          · exact absurd (Or.inr hxl) (hall e rfl)
          · injection he' with hee
            subst hee
            rcases hcase with ⟨hl, _⟩ | ⟨_, hr⟩
            · exact absurd hl hcsv
            · exact hr
      · rw [if_neg hcsv, if_neg hxl]
        constructor
        · intro _
          refine Or.inl fun e' he' => ?_
          injection he' with hee
          subst hee
          rintro (h1 | h1)
          · exact hcsv h1
          · exact hxl h1
        · intro _
          rfl

/-- Witness for C9: a CSV whose reader fails (for instance an empty file)
loads as `none`. -/
theorem load_dataframe_failure_iff_witness :
    load_dataframe (fun _ => none) (fun _ => none) "data.csv" = none :=
  (load_dataframe_failure_iff (fun _ => none) (fun _ => none) "data.csv").mpr
    (Or.inr ⟨"csv", by decide, Or.inl ⟨by decide, rfl⟩⟩)
